import Mathlib

/-!
# TinyTerminal — connection session manager, shallow embedding

Shallow embedding of `src/server.js` (and `src/constants.js`) of the
TinyTerminal repository: the per-connection session state machine
(authentication gate, lazy PTY lifecycle, message routing), the
timing-safe token comparison, and the Tailscale CGNAT address check.

Conventions:
* JavaScript strings that are only ever inspected as bytes (tokens,
  terminal input) are modelled as `List Nat` of their buffer bytes.
* Hostname strings handed to `isTailscaleIP` are modelled as `List Char`,
  since the code splits them on `'.'` characters.
* Machine numbers are `Int`/`Nat`; the result of JavaScript's
  `Number(x)` coercion in the resize handler is modelled as `Option Int`
  (`some k` when the coercion yields the integer `k`, `none` when it
  yields `NaN` or a non-integral value, so that `Number.isInteger` is
  `Option.isSome`).
* Stateful connection handling becomes an explicit step function
  `Session → Event → Session × List Effect`; effects record everything
  the handler does to the outside world (messages sent, connection
  closes, PTY spawns/writes/resizes/kills).
-/

namespace TinyTerminal

/-! ## Constants (`src/constants.js`) -/

/-- `MAX_INPUT_LENGTH` from `src/constants.js`. -/
def MAX_INPUT_LENGTH : Nat := 10000

/-- `MAX_CONNECTIONS` from `src/constants.js`. -/
def MAX_CONNECTIONS : Nat := 3

/-- The authentication deadline (`setTimeout(..., 5000)` in
`handleConnection`), in milliseconds: five 1000 ms time units. -/
def AUTH_TIMEOUT_MS : Nat := 5000

/-! ## JavaScript values

A small universe of JavaScript values, enough to express the dynamic
`typeof` checks the code performs on message fields.  A string is carried
as its buffer bytes (`Buffer.from(s)`). -/

/-- Bytes of a JavaScript `Buffer`. -/
abbrev Bytes := List Nat

/-- A JavaScript value as received in a parsed message field. -/
inductive JSVal where
  | vstr (s : Bytes)
  | vnum (n : Int)
  | vbool (b : Bool)
  | vnull
  | vundefined
deriving DecidableEq

/-- `typeof v === 'string'`. -/
def JSVal.isStr : JSVal → Bool
  | .vstr _ => true
  | _ => false

/-- The bytes of a string value (`[]` for non-strings; only used where a
string check has already passed). -/
def JSVal.bytes : JSVal → Bytes
  | .vstr s => s
  | _ => []

/-! ## `secureTokenCompare` (`src/server.js` lines 243–264) -/

/-- `Buffer.alloc(n)` followed by `buf.copy(...)`: the buffer `b` placed in
a zero-filled buffer of length `n` (for `n ≥ b.length`, the behaviour that
the code exercises). -/
def bufferPad (n : Nat) (b : Bytes) : Bytes :=
  b ++ List.replicate (n - b.length) 0

/-- `secureTokenCompare(a, b)`: returns `false` for non-strings; otherwise
compares the UTF-8 buffers with `crypto.timingSafeEqual`, zero-padding the
shorter buffer to the longer one's length when the lengths differ. -/
def secureTokenCompare (a b : JSVal) : Bool :=
  match a, b with
  | .vstr sa, .vstr sb =>
    if sa.length ≠ sb.length then
      let maxLen := max sa.length sb.length
      decide (bufferPad maxLen sa = bufferPad maxLen sb)
    else
      decide (sa = sb)
  | _, _ => false

/-! ## `isTailscaleIP` (`src/server.js` lines 188–197) -/

/-- JavaScript `hostname.split('.')` on a single-character separator,
over the character list of the string. -/
def splitOnDot : List Char → List (List Char)
  | [] => [[]]
  | c :: cs =>
    if c = '.' then [] :: splitOnDot cs
    else
      match splitOnDot cs with
      | h :: t => (c :: h) :: t
      | [] => [[c]]

/-- ASCII whitespace skipped by JavaScript `parseInt`. -/
def isJsSpace (c : Char) : Bool :=
  c = ' ' || c = '\t' || c = '\n' || c = '\r' || c = '\x0b' || c = '\x0c'

/-- Decimal digit test. -/
def isDigitChar (c : Char) : Bool :=
  '0' ≤ c && c ≤ '9'

/-- Value of a list of decimal digit characters. -/
def digitsToNat (ds : List Char) : Nat :=
  ds.foldl (fun a c => 10 * a + (c.toNat - 48)) 0

/-- JavaScript `parseInt(s, 10)`: skip leading whitespace, take an
optional sign, then the longest prefix of decimal digits; `none` models
`NaN` (no digits). -/
def parseIntJS (s : List Char) : Option Int :=
  let cs := s.dropWhile isJsSpace
  let signAndRest : Int × List Char :=
    match cs with
    | '-' :: t => (-1, t)
    | '+' :: t => (1, t)
    | _ => (1, cs)
  let ds := signAndRest.2.takeWhile isDigitChar
  if ds.isEmpty then none
  else some (signAndRest.1 * (digitsToNat ds : Int))

/-- `isTailscaleIP(hostname)`: split on `'.'`, require exactly four parts,
`parseInt` the first two, and accept iff the first is `100` and the second
is between `64` and `127` (NaN comparisons are false). -/
def isTailscaleIP (hostname : List Char) : Bool :=
  match splitOnDot hostname with
  | [p0, p1, _, _] =>
    match parseIntJS p0, parseIntJS p1 with
    | some first, some second => first = 100 && 64 ≤ second && second ≤ 127
    | _, _ => false
  | _ => false

/-- Modelled from the spec: an "IPv4-shaped" string in the sense of §8 of
the specification — exactly four dot-separated parts, each a nonempty run
of decimal digits with value at most 255.  This follows the spec's words
and exists only to state claims about non-IPv4-shaped inputs; the source
has no such predicate. -/
def specIPv4Shaped (s : List Char) : Bool :=
  match splitOnDot s with
  | [a, b, c, d] =>
    [a, b, c, d].all fun p =>
      !p.isEmpty && p.all isDigitChar && digitsToNat p ≤ 255
  | _ => false

/-! ## Input validation (`validateInput`, `src/server.js` lines 80–92) -/

/-- `validateInput(input)` succeeds (does not throw) iff the value is a
string, nonempty, at most `MAX_INPUT_LENGTH` long, and free of null
bytes. -/
def validateInput (v : JSVal) : Bool :=
  match v with
  | .vstr s =>
    decide (s.length ≠ 0) && decide (s.length ≤ MAX_INPUT_LENGTH) &&
      !s.contains 0
  | _ => false

/-! ## The per-connection session machine (`handleConnection`)

`handleConnection` closes over mutable locals `authenticated`,
`authTimeout`, `ptyProcess`; the `ws.on('message')` callback, the auth
`setTimeout` callback, the PTY `onData`/`onExit` callbacks and the
`ws.on('close')` callback mutate them.  The embedding makes that state a
`Session` record and each callback invocation an `Event`; every
externally visible action becomes an `Effect`. -/

/-- The PTY handle owned by a session.  `id` is a ghost name (the spawn
ordinal) identifying the underlying subprocess; `exited` is a ghost flag
recording that its exit event fired. -/
structure Pty where
  id : Nat
  cols : Int
  rows : Int
  exited : Bool
deriving DecidableEq

/-- A parsed inbound client message (`JSON.parse` result, classified by
its `type` field), or `malformed` when `JSON.parse` throws. -/
inductive ClientMsg where
  | auth (token : JSVal)
  | input (data : JSVal)
  | resize (cols rows : Option Int)
  | unknown
  | malformed
deriving DecidableEq

/-- A server→client message envelope. -/
inductive Envelope where
  | connected (message : String)
  | output (data : Bytes)
  | exitNotice (code : Int)
  | error
deriving DecidableEq

/-- The fixed text of the generic error envelope. -/
def GENERIC_ERROR : String := "Failed to process request"

/-- An externally visible action of the session handler. -/
inductive Effect where
  | send (env : Envelope)
  | closeConn (code : Nat) (reason : String)
  | spawnPTY (id : Nat) (cols rows : Int)
  | ptyWrite (id : Nat) (data : Bytes)
  | ptyResize (id : Nat) (cols rows : Int)
  | ptyKill (id : Nat)
deriving DecidableEq

/-- The mutable state of one connection in `handleConnection`. -/
structure Session where
  /-- Whether `TINYTERMINAL_TOKEN` is configured. -/
  hasToken : Bool
  /-- The configured token's bytes (meaningful when `hasToken`). -/
  token : Bytes
  /-- The `authenticated` local. -/
  authenticated : Bool
  /-- Whether the auth `setTimeout` is armed and not yet cleared/fired. -/
  authTimeoutActive : Bool
  /-- The `ptyProcess` local (`none` = `null`). -/
  pty : Option Pty
  /-- Ghost: how many PTY subprocesses `setupPTY` has spawned. -/
  spawns : Nat
  /-- Whether the connection's close handler has run. -/
  closed : Bool
deriving DecidableEq

/-- An occurrence that drives the session: an inbound message, the auth
deadline firing, a PTY data/exit callback, or the connection closing. -/
inductive Event where
  | msg (m : ClientMsg)
  | authTimeoutFire
  | ptyData (data : Bytes)
  | ptyExit (code : Int)
  | wsClose
deriving DecidableEq

/-- Session creation (`handleConnection` lines 318–332, 480–489):
`authenticated = !AUTH_TOKEN`, the deadline armed only when a token is
configured, and the immediate `connected` notice sent only when none
is. -/
def initSession (hasToken : Bool) (token : Bytes) : Session × List Effect :=
  ({ hasToken := hasToken
     token := token
     authenticated := !hasToken
     authTimeoutActive := hasToken
     pty := none
     spawns := 0
     closed := false },
   if hasToken then [] else [.send (.connected "PTY initialized")])

/-- The `message.type === 'auth'` branch (lines 382–411). -/
def handleAuth (s : Session) (tok : JSVal) : Session × List Effect :=
  if !s.hasToken then (s, [])
  else if s.authenticated then (s, [])
  else if secureTokenCompare tok (.vstr s.token) then
    ({ s with authenticated := true, authTimeoutActive := false },
     [.send (.connected "Authentication successful")])
  else
    (s, [.closeConn 4001 "Unauthorized"])

/-- The `message.type === 'input'` branch (lines 419–424); a
`validateInput` throw is caught by the surrounding handler, which sends
the generic error envelope (lines 450–459). -/
def handleInput (s : Session) (d : JSVal) : Session × List Effect :=
  if validateInput d then
    match s.pty with
    | some p => (s, [.ptyWrite p.id d.bytes])
    | none => (s, [])
  else
    (s, [.send .error])

/-- The `message.type === 'resize'` branch (lines 425–446): validate the
coerced dimensions, then either `setupPTY` (first resize) or resize the
existing subprocess in place; a validation throw yields the generic error
envelope. -/
def handleResize (s : Session) (cols rows : Option Int) :
    Session × List Effect :=
  match cols, rows with
  | some c, some r =>
    if c < 1 ∨ c > 500 ∨ r < 1 ∨ r > 200 then
      (s, [.send .error])
    else
      match s.pty with
      | none =>
        ({ s with
            pty := some { id := s.spawns, cols := c, rows := r, exited := false }
            spawns := s.spawns + 1 },
         [.spawnPTY s.spawns c r])
      | some p =>
        ({ s with pty := some { p with cols := c, rows := r } },
         [.ptyResize p.id c r])
  | _, _ => (s, [.send .error])

/-- The `ws.on('message')` callback (lines 377–460): the auth branch runs
first regardless of state; every other message type is silently dropped
until `authenticated`; an unknown type or a parse failure yields the
generic error envelope. -/
def handleMessage (s : Session) (m : ClientMsg) : Session × List Effect :=
  match m with
  | .malformed => (s, [.send .error])
  | .auth tok => handleAuth s tok
  | .input d => if !s.authenticated then (s, []) else handleInput s d
  | .resize c r => if !s.authenticated then (s, []) else handleResize s c r
  | .unknown => if !s.authenticated then (s, []) else (s, [.send .error])

/-- One callback invocation on a live session.  After the close handler
has run the connection's listeners are gone, so every event is a no-op. -/
def step (s : Session) (e : Event) : Session × List Effect :=
  if s.closed then (s, [])
  else
    match e with
    | .msg m => handleMessage s m
    | .authTimeoutFire =>
      if s.authTimeoutActive && !s.authenticated then
        ({ s with authTimeoutActive := false },
         [.closeConn 4001 "Authentication timeout"])
      else
        ({ s with authTimeoutActive := false }, [])
    | .ptyData d =>
      match s.pty with
      | some _ => (s, [.send (.output d)])
      | none => (s, [])
    | .ptyExit code =>
      match s.pty with
      | some p =>
        ({ s with pty := some { p with exited := true } },
         [.send (.exitNotice code)])
      | none => (s, [])
    | .wsClose =>
      ({ s with closed := true, authTimeoutActive := false, pty := none },
       match s.pty with
       | some p => [.ptyKill p.id]
       | none => [])

/-- Run a sequence of events, accumulating effects. -/
def run (s : Session) : List Event → Session × List Effect
  | [] => (s, [])
  | e :: es =>
    let (s₁, effs₁) := step s e
    let (s₂, effs₂) := run s₁ es
    (s₂, effs₁ ++ effs₂)

/-! ## Admission control (spec §4.1)

The identity-keyed session registry with same-identity eviction is
exercised by `tests/server.test.js` ("should replace old connection when
same IP reconnects") but the registry code itself is not among the
provided sources, so it is modelled from the specification. -/

/-- Modelled from the spec: the Admission Control registry of §4.1 — a
map from source identity to the active session registered under it, plus
the configured concurrency limit.  The implementation (a source-identity
→ session map inside `server.js`) is missing from the provided sources;
only its tests reference it. -/
structure Registry where
  sessions : List (Nat × Nat)
  limit : Nat
deriving DecidableEq

/-- The session registered under a source identity, if any. -/
def findBySrc (l : List (Nat × Nat)) (src : Nat) : Option Nat :=
  match l with
  | [] => none
  | (k, v) :: t => if k = src then some v else findBySrc t src

/-- The outcome of an admission attempt: rejection (the new connection is
closed, nothing sent), or acceptance, possibly evicting the session that
held the same source identity. -/
inductive AdmitResult where
  | rejected
  | accepted (evicted : Option Nat)
deriving DecidableEq

/-- Modelled from the spec: `admitSession(sourceIdentity)` of §4.1.  A reconnect
from a source identity that already holds a session evicts that session
(its connection closed, its slot reused) and registers the new one in its
place; otherwise a fresh identity is admitted only while the concurrency
limit has room, and rejected (closed, nothing sent) at the limit. -/
def admitSession (reg : Registry) (src newSid : Nat) : Registry × AdmitResult :=
  match findBySrc reg.sessions src with
  | some old =>
    ({ reg with
        sessions := (src, newSid) :: reg.sessions.filter fun p => p.1 ≠ src },
     .accepted (some old))
  | none =>
    if reg.sessions.length ≥ reg.limit then (reg, .rejected)
    else ({ reg with sessions := (src, newSid) :: reg.sessions }, .accepted none)

/-- Modelled from the spec: on session destruction its slot is released
(§4.1), removing its entry from the registry. -/
def release (reg : Registry) (sid : Nat) : Registry :=
  { reg with sessions := reg.sessions.filter fun p => p.2 ≠ sid }

/-- The registry keys (source identities) are pairwise distinct. -/
def Registry.uniqueIdentities (reg : Registry) : Prop :=
  (reg.sessions.map Prod.fst).Nodup

/-! ## Heartbeat monitor (spec §4.4)

The ping/pong heartbeat (`HEARTBEAT_INTERVAL`, `MAX_MISSED_PONGS`) is
exercised by `tests/server.test.js` ("Heartbeat" suite) but the
implementing code is not among the provided sources, so it is modelled
from the specification. -/

/-- Modelled from the spec: the fixed missed-probe threshold of §4.4
(default 2).  The implementing constant `MAX_MISSED_PONGS` of
`src/constants.js` is missing from the provided sources. -/
def MISSED_PONG_THRESHOLD : Nat := 2

/-- Modelled from the spec: the per-session liveness state of §4.4 —
the `missedPongs` counter, whether the transport has been forcibly
terminated, and whether the interval timer is still running. -/
structure Heartbeat where
  missedPongs : Nat
  terminated : Bool
  timerActive : Bool
deriving DecidableEq

/-- An externally visible heartbeat action: a liveness probe, or the
hard transport drop (`terminate`, distinct from a graceful close). -/
inductive HbEffect where
  | probe
  | hardDrop
deriving DecidableEq

/-- Heartbeat state at session start: no missed probes, timer running. -/
def hbInit : Heartbeat := { missedPongs := 0, terminated := false, timerActive := true }

/-- Modelled from the spec: one tick of the fixed-interval heartbeat of
§4.4.  If the count of unacknowledged probes has exceeded the threshold,
forcibly terminate the transport and stop the timer; otherwise send a
probe and increment `missedPongs` provisionally (an acknowledgment resets
it). -/
def hbTick (h : Heartbeat) : Heartbeat × List HbEffect :=
  if !h.timerActive then (h, [])
  else if h.missedPongs > MISSED_PONG_THRESHOLD then
    ({ h with terminated := true, timerActive := false }, [.hardDrop])
  else
    ({ h with missedPongs := h.missedPongs + 1 }, [.probe])

/-- Modelled from the spec: receiving a liveness acknowledgment resets
`missedPongs` to zero (§4.4). -/
def hbPong (h : Heartbeat) : Heartbeat :=
  { h with missedPongs := 0 }

/-- `n` consecutive ticks with no acknowledgment in between. -/
def hbTicks (h : Heartbeat) : Nat → Heartbeat
  | 0 => h
  | n + 1 => (hbTick (hbTicks h n)).1

/-- The spawn-count invariant of a session: at most one PTY is ever
spawned; a live PTY accounts for the one spawn; and once the single spawn
has happened, the handle can only be gone because the connection
closed. -/
def PtySpawnInv (s : Session) : Prop :=
  s.spawns ≤ 1 ∧ (s.pty.isSome = true → s.spawns = 1) ∧
    (s.spawns = 1 → s.pty = none → s.closed = true)

/-! ## Theorems -/

/-- Claim C1: `secureTokenCompare` is claimed to return `true` exactly on
equal tokens, also when the lengths differ (e.g. `b` equal to `a` extended
by extra bytes).  The code violates this: padding the shorter buffer with
zero bytes makes a token that extends the secret by NUL bytes compare
equal.  At `a = "x"` (bytes `[120]`) and `b = "x\x00"` (bytes
`[120, 0]`), the tokens differ yet the function returns `true`. -/
theorem secureTokenCompare_nul_extension_accepted :
    ([120] : Bytes) ≠ [120, 0] ∧
    secureTokenCompare (.vstr [120]) (.vstr [120, 0]) = true := by
  decide

/-- Claim C2: with a shared secret configured and the session not yet
authenticated, every inbound `input`, `resize` and unknown-type message is
silently dropped: the state is unchanged (in particular no PTY is
created, even by a `resize`) and no effect — no response, no error
envelope — is produced. -/
theorem preauth_messages_silently_dropped (s : Session)
    (_h_tok : s.hasToken = true) (h_auth : s.authenticated = false)
    (h_open : s.closed = false) :
    (∀ d, step s (.msg (.input d)) = (s, [])) ∧
    (∀ c r, step s (.msg (.resize c r)) = (s, [])) ∧
    step s (.msg .unknown) = (s, []) ∧
    (∀ c r, ((step s (.msg (.resize c r))).1).pty = s.pty) := by
  refine ⟨fun d => ?_, fun c r => ?_, ?_, fun c r => ?_⟩ <;>
    simp [step, handleMessage, h_auth, h_open]

/-- Claim C2 witness: a concrete unauthenticated session with a
configured token drops a `resize` silently. -/
theorem preauth_messages_silently_dropped_witness :
    (Session.mk true [9] false true none 0 false).hasToken = true ∧
    step (Session.mk true [9] false true none 0 false)
        (.msg (.resize (some 80) (some 24))) =
      (Session.mk true [9] false true none 0 false, []) :=
  ⟨by decide,
   (preauth_messages_silently_dropped (Session.mk true [9] false true none 0 false)
      rfl rfl rfl).2.1 (some 80) (some 24)⟩

/-- Claim C4 counterexample: the claim says an `auth` message whose token
mismatches the secret closes the connection with `"Unauthorized"`.  With
the secret `"x"` (bytes `[120]`), the token `"x\x00"` (bytes `[120, 0]`)
is a different token, yet the session authenticates and sends the
`connected` acknowledgment instead of closing: the zero-padding in
`secureTokenCompare` makes the two compare equal. -/
theorem auth_mismatched_token_authenticates :
    ([120, 0] : Bytes) ≠ [120] ∧
    step (Session.mk true [120] false true none 0 false)
        (.msg (.auth (.vstr [120, 0]))) =
      (Session.mk true [120] true false none 0 false,
       [.send (.connected "Authentication successful")]) := by
  decide

/-- Claim C4 (amended): with a shared secret configured, on a live
unauthenticated session an `auth` message whose token compares equal to
the secret under the code's `secureTokenCompare` — which holds for the
exact secret, but by the NUL-padding bug also for the secret extended by
NUL bytes — sets `authenticated`, cancels the deadline timer and sends
the `connected` acknowledgment; a token comparing unequal closes the
connection with code 4001 and reason `"Unauthorized"`; and the deadline
firing before authentication closes it with code 4001 and reason
`"Authentication timeout"`.  The deadline is `5000` ms: five 1000 ms
units. -/
theorem auth_gate_behaviour (s : Session) (tok : JSVal)
    (h_open : s.closed = false) (h_tok : s.hasToken = true)
    (h_auth : s.authenticated = false) :
    (secureTokenCompare tok (.vstr s.token) = true →
      step s (.msg (.auth tok)) =
        ({ s with authenticated := true, authTimeoutActive := false },
         [.send (.connected "Authentication successful")])) ∧
    (secureTokenCompare tok (.vstr s.token) = false →
      step s (.msg (.auth tok)) = (s, [.closeConn 4001 "Unauthorized"])) ∧
    (s.authTimeoutActive = true →
      step s .authTimeoutFire =
        ({ s with authTimeoutActive := false },
         [.closeConn 4001 "Authentication timeout"])) ∧
    AUTH_TIMEOUT_MS = 5 * 1000 ∧
    secureTokenCompare (.vstr s.token) (.vstr s.token) = true := by
  refine ⟨fun hcmp => ?_, fun hcmp => ?_, fun hact => ?_, rfl, ?_⟩
  · simp [step, handleMessage, handleAuth, h_open, h_tok, h_auth, hcmp]
  · simp [step, handleMessage, handleAuth, h_open, h_tok, h_auth, hcmp]
  · simp [step, h_open, h_auth, hact]
  · simp [secureTokenCompare]

/-- Claim C4 witness: on a concrete session with token bytes `[9, 9]`,
the matching token authenticates and is acknowledged. -/
theorem auth_gate_behaviour_witness :
    secureTokenCompare (.vstr [9, 9]) (.vstr [9, 9]) = true ∧
    step (Session.mk true [9, 9] false true none 0 false)
        (.msg (.auth (.vstr [9, 9]))) =
      (Session.mk true [9, 9] true false none 0 false,
       [.send (.connected "Authentication successful")]) :=
  ⟨by decide,
   (auth_gate_behaviour (Session.mk true [9, 9] false true none 0 false)
      (.vstr [9, 9]) rfl rfl rfl).1 (by decide)⟩

/-- Claim C9: `secureTokenCompare` returns `false` whenever either
argument is not a string, even when both are the identical non-string
value; consequently an `auth` message whose token field is missing
(`undefined`) or otherwise non-string can never authenticate a live
session — it closes the connection as unauthorized instead. -/
theorem nonstring_token_never_authenticates :
    (∀ a b : JSVal, a.isStr = false ∨ b.isStr = false →
      secureTokenCompare a b = false) ∧
    (∀ v : JSVal, v.isStr = false → secureTokenCompare v v = false) ∧
    (∀ (s : Session) (tok : JSVal), s.closed = false → s.hasToken = true →
      s.authenticated = false → tok.isStr = false →
      step s (.msg (.auth tok)) = (s, [.closeConn 4001 "Unauthorized"])) := by
  have hfalse : ∀ a b : JSVal, a.isStr = false ∨ b.isStr = false →
      secureTokenCompare a b = false := by
    intro a b hab
    cases a <;> cases b <;>
      simp_all [secureTokenCompare, JSVal.isStr]
  refine ⟨hfalse, fun v hv => hfalse v v (Or.inl hv), ?_⟩
  intro s tok h_open h_tok h_auth h_str
  have hcmp : secureTokenCompare tok (.vstr s.token) = false :=
    hfalse tok (.vstr s.token) (Or.inl h_str)
  simp [step, handleMessage, handleAuth, h_open, h_tok, h_auth, hcmp]

/-- Claim C9 witness: both arguments `null` — identical non-strings —
compare `false`, and an `auth` message with an `undefined` token on a
concrete live session closes it as unauthorized. -/
theorem nonstring_token_never_authenticates_witness :
    secureTokenCompare .vnull .vnull = false ∧
    step (Session.mk true [9] false true none 0 false)
        (.msg (.auth .vundefined)) =
      (Session.mk true [9] false true none 0 false,
       [.closeConn 4001 "Unauthorized"]) :=
  ⟨nonstring_token_never_authenticates.2.1 .vnull rfl,
   nonstring_token_never_authenticates.2.2
     (Session.mk true [9] false true none 0 false) .vundefined rfl rfl rfl rfl⟩

/-- Claim C8 counterexample: the claim requires every non-IPv4-shaped
string to be rejected, but `"100.64.x.y"` — not IPv4-shaped — is
accepted: `split('.')` yields four parts and only the first two are ever
parsed, with `parseInt` taking the leading digits. -/
theorem isTailscaleIP_accepts_non_ipv4_shaped :
    specIPv4Shaped ("100.64.x.y").data = false ∧
    isTailscaleIP ("100.64.x.y").data = true := by
  decide

/-- Claim C8 (amended): `isTailscaleIP` accepts a string iff it splits on
`'.'` into exactly four parts whose first part `parseInt`s to 100 and
whose second `parseInt`s to a value between 64 and 127 inclusive — the
third and fourth parts are never inspected.  The stated boundary
addresses behave as claimed and strings without exactly four parts are
rejected, but non-IPv4-shaped four-part strings can be accepted. -/
theorem isTailscaleIP_characterisation :
    isTailscaleIP ("100.64.0.0").data = true ∧
    isTailscaleIP ("100.127.255.255").data = true ∧
    isTailscaleIP ("100.63.255.255").data = false ∧
    isTailscaleIP ("100.128.0.0").data = false ∧
    (∀ s p0 p1 p2 p3, splitOnDot s = [p0, p1, p2, p3] →
      (isTailscaleIP s = true ↔
        ∃ a b, parseIntJS p0 = some a ∧ parseIntJS p1 = some b ∧
          a = 100 ∧ 64 ≤ b ∧ b ≤ 127)) ∧
    (∀ s, (splitOnDot s).length ≠ 4 → isTailscaleIP s = false) := by
  refine ⟨by decide, by decide, by decide, by decide, ?_, ?_⟩
  · intro s p0 p1 p2 p3 heq
    unfold isTailscaleIP
    rw [heq]
    rcases hp0 : parseIntJS p0 with _ | a <;>
      rcases hp1 : parseIntJS p1 with _ | b <;>
        simp [hp0, hp1, and_assoc]
  · intro s hlen
    unfold isTailscaleIP
    split
    · rename_i p0 p1 p2 p3 heq
      exact absurd (by rw [heq] ; rfl) hlen
    · rfl

/-- Claim C8 witness: `"hello"` does not split into four parts and is
rejected, via the characterisation theorem. -/
theorem isTailscaleIP_characterisation_witness :
    (splitOnDot ("hello").data).length ≠ 4 ∧
    isTailscaleIP ("hello").data = false :=
  ⟨by decide,
   isTailscaleIP_characterisation.2.2.2.2.2 ("hello").data (by decide)⟩

/-- Claim C7 counterexample: on an authenticated session with no PTY, an
`input` message whose `data` is the empty string makes `validateInput`
throw, so the generic error envelope IS sent — refuting "no error
envelope is sent in response to any input message while no PTY
exists". -/
theorem input_error_sent_without_pty :
    step (Session.mk false [] true false none 0 false)
        (.msg (.input (.vstr []))) =
      (Session.mk false [] true false none 0 false, [.send .error]) := by
  decide

/-- Claim C7 (amended): on a live authenticated session with no PTY, an
`input` message that passes input validation (a nonempty string within
the length bound and free of NUL bytes) never reaches a subprocess and
produces no error — no effect at all; an `input` message that fails
validation elicits the generic error envelope. -/
theorem valid_input_without_pty_silent (s : Session) (d : JSVal)
    (h_open : s.closed = false) (h_auth : s.authenticated = true)
    (h_nopty : s.pty = none) :
    (validateInput d = true → step s (.msg (.input d)) = (s, [])) ∧
    (validateInput d = false →
      step s (.msg (.input d)) = (s, [.send .error])) := by
  constructor <;> intro hv <;>
    simp [step, handleMessage, handleInput, h_open, h_auth, h_nopty, hv]

/-- Claim C7 witness: the one-byte input `[7]` is valid and is silently
dropped on a concrete authenticated session with no PTY. -/
theorem valid_input_without_pty_silent_witness :
    validateInput (.vstr [7]) = true ∧
    step (Session.mk false [] true false none 0 false)
        (.msg (.input (.vstr [7]))) =
      (Session.mk false [] true false none 0 false, []) :=
  ⟨by decide,
   (valid_input_without_pty_silent (Session.mk false [] true false none 0 false)
      (.vstr [7]) rfl rfl rfl).1 (by decide)⟩

/-- A running heartbeat at or below the threshold probes and counts. -/
theorem hbTick_probe (m : Nat) (hle : m ≤ MISSED_PONG_THRESHOLD) :
    hbTick { missedPongs := m, terminated := false, timerActive := true } =
      ({ missedPongs := m + 1, terminated := false, timerActive := true },
       [.probe]) := by
  simp only [MISSED_PONG_THRESHOLD] at hle
  simp only [hbTick, Bool.not_true, Bool.false_eq_true, if_false]
  rw [if_neg (by simpa [MISSED_PONG_THRESHOLD] using Nat.not_lt.mpr hle)]

/-- A running heartbeat past the threshold hard-drops and stops. -/
theorem hbTick_drop (m : Nat) (hgt : m > MISSED_PONG_THRESHOLD) :
    hbTick { missedPongs := m, terminated := false, timerActive := true } =
      ({ missedPongs := m, terminated := true, timerActive := false },
       [.hardDrop]) := by
  simp only [hbTick, Bool.not_true, Bool.false_eq_true, if_false]
  rw [if_pos hgt]

/-- A stopped heartbeat timer does nothing. -/
theorem hbTick_stopped (h : Heartbeat) (ha : h.timerActive = false) :
    hbTick h = (h, []) := by
  simp [hbTick, ha]

/-- Closed form of an unacknowledged heartbeat run: the counter climbs by
one per tick until it has exceeded the threshold, at which point the
transport is dropped and the timer stops for good. -/
theorem hbTicks_closed_form (n : Nat) :
    hbTicks hbInit n =
      if n ≤ MISSED_PONG_THRESHOLD + 1 then
        { missedPongs := n, terminated := false, timerActive := true }
      else
        { missedPongs := MISSED_PONG_THRESHOLD + 1, terminated := true,
          timerActive := false } := by
  induction n with
  | zero => rfl
  | succ n ih =>
    show (hbTick (hbTicks hbInit n)).1 = _
    rw [ih]
    by_cases h2 : n ≤ MISSED_PONG_THRESHOLD
    · rw [if_pos (by omega), hbTick_probe n h2, if_pos (by omega)]
    · by_cases h3 : n = MISSED_PONG_THRESHOLD + 1
      · subst h3
        rw [if_pos (by omega), hbTick_drop _ (by omega), if_neg (by omega)]
      · rw [if_neg (by omega), hbTick_stopped _ rfl, if_neg (by omega)]

/-- Claim C5: on a session whose heartbeat timer is running, each tick
with the previous probe unacknowledged increments `missedPongs` and sends
a probe; once `missedPongs` exceeds the threshold (default 2) the tick
hard-drops the transport (distinct from a graceful close) and stops the
timer; an acknowledgment resets `missedPongs` to zero.  From a fresh
session with no acknowledgments, termination occurs exactly once the
threshold has been exceeded. -/
theorem heartbeat_monitor_behaviour (h : Heartbeat)
    (h_act : h.timerActive = true) :
    (h.missedPongs ≤ MISSED_PONG_THRESHOLD →
      hbTick h = ({ h with missedPongs := h.missedPongs + 1 }, [.probe])) ∧
    (h.missedPongs > MISSED_PONG_THRESHOLD →
      hbTick h = ({ h with terminated := true, timerActive := false },
        [.hardDrop])) ∧
    hbPong h = { h with missedPongs := 0 } ∧
    MISSED_PONG_THRESHOLD = 2 ∧
    (∀ n, (hbTicks hbInit n).terminated = true ↔
      MISSED_PONG_THRESHOLD + 2 ≤ n) ∧
    (∀ n, MISSED_PONG_THRESHOLD + 2 ≤ n →
      (hbTicks hbInit n).timerActive = false) := by
  refine ⟨fun hle => ?_, fun hgt => ?_, rfl, rfl, fun n => ?_, fun n hn => ?_⟩
  · simp only [hbTick, h_act, Bool.not_true, Bool.false_eq_true, if_false]
    rw [if_neg (Nat.not_lt.mpr hle)]
  · simp only [hbTick, h_act, Bool.not_true, Bool.false_eq_true, if_false]
    rw [if_pos hgt]
  · rw [hbTicks_closed_form]
    by_cases hc : n ≤ MISSED_PONG_THRESHOLD + 1
    · rw [if_pos hc]
      simp only []
      constructor
      · intro hfalse
        exact absurd hfalse (by simp)
      · intro hle2
        omega
    · rw [if_neg hc]
      simp only []
      constructor
      · intro _
        omega
      · intro _
        trivial
  · rw [hbTicks_closed_form, if_neg (by omega)]

/-- Claim C5 witness: from a fresh heartbeat with the spec-default
threshold 2, a tick from the initial state probes and counts, and four
unacknowledged ticks terminate the transport. -/
theorem heartbeat_monitor_behaviour_witness :
    hbInit.missedPongs ≤ MISSED_PONG_THRESHOLD ∧
    hbTick hbInit =
      ({ missedPongs := 1, terminated := false, timerActive := true },
       [.probe]) ∧
    (hbTicks hbInit 4).terminated = true :=
  ⟨by decide,
   (heartbeat_monitor_behaviour hbInit rfl).1 (by decide),
   ((heartbeat_monitor_behaviour hbInit rfl).2.2.2.2.1 4).mpr (by decide)⟩

/-- A registry lookup that misses means no entry carries that key. -/
theorem findBySrc_eq_none_forall (l : List (Nat × Nat)) (k : Nat)
    (h : findBySrc l k = none) : ∀ p ∈ l, p.1 ≠ k := by
  induction l with
  | nil => simp
  | cons hd tl ih =>
    intro p hp
    simp only [findBySrc] at h
    by_cases hk : hd.1 = k
    · simp [hk] at h
    · rcases List.mem_cons.mp hp with rfl | hmem
      · exact hk
      · exact ih (by simpa [hk] using h) p hmem

/-- `admitSession` preserves distinctness of the registered source
identities. -/
theorem admitSession_uniqueIdentities (reg : Registry) (src sid : Nat)
    (h : reg.uniqueIdentities) :
    ((admitSession reg src sid).1).uniqueIdentities := by
  unfold Registry.uniqueIdentities at *
  unfold admitSession
  cases hf : findBySrc reg.sessions src with
  | some old =>
    simp only [List.map_cons]
    refine List.nodup_cons.mpr ⟨?_, ?_⟩
    · intro hmem
      obtain ⟨q, hq, hq1⟩ := List.mem_map.mp hmem
      have hne := List.of_mem_filter hq
      simp only [decide_eq_true_eq] at hne
      exact hne hq1
    · exact List.Nodup.sublist (List.Sublist.map _ (List.filter_sublist _)) h
  | none =>
    by_cases hlim : reg.sessions.length ≥ reg.limit
    · simpa [hlim] using h
    · simp only [hlim, if_neg, ite_false, List.map_cons]
      refine List.nodup_cons.mpr ⟨?_, h⟩
      intro hmem
      obtain ⟨q, hq, hq1⟩ := List.mem_map.mp hmem
      exact findBySrc_eq_none_forall reg.sessions src hf q hq hq1

/-- Claim C3: admitting a connection from a source identity that already
holds an active session evicts exactly that session — the result reports
it for closure and it is gone from the registry — while the new
connection is accepted and registered in its place; and admission always
preserves the one-session-per-identity property of the registry. -/
theorem admission_same_identity_eviction (reg : Registry)
    (src old newSid : Nat)
    (h_old : findBySrc reg.sessions src = some old)
    (h_ne : old ≠ newSid) :
    (admitSession reg src newSid).2 = .accepted (some old) ∧
    findBySrc ((admitSession reg src newSid).1).sessions src = some newSid ∧
    (src, old) ∉ ((admitSession reg src newSid).1).sessions ∧
    (∀ sid', (src, sid') ∈ ((admitSession reg src newSid).1).sessions →
      sid' = newSid) ∧
    (∀ (reg' : Registry) (src' sid' : Nat), reg'.uniqueIdentities →
      ((admitSession reg' src' sid').1).uniqueIdentities) := by
  refine ⟨?_, ?_, ?_, ?_, fun reg' src' sid' h' =>
    admitSession_uniqueIdentities reg' src' sid' h'⟩
  · simp [admitSession, h_old]
  · simp [admitSession, h_old, findBySrc]
  · simp only [admitSession, h_old]
    intro hmem
    rcases List.mem_cons.mp hmem with heq | hmem'
    · cases heq
      exact h_ne rfl
    · have hne := List.of_mem_filter hmem'
      simp at hne
  · simp only [admitSession, h_old]
    intro sid' hmem
    rcases List.mem_cons.mp hmem with heq | hmem'
    · cases heq
      rfl
    · have hne := List.of_mem_filter hmem'
      simp at hne

/-- Claim C3 witness: in a registry where identity 7 holds session 1,
admitting session 2 from identity 7 evicts session 1 and registers
session 2 under identity 7. -/
theorem admission_same_identity_eviction_witness :
    findBySrc ([(7, 1)] : List (Nat × Nat)) 7 = some 1 ∧
    (admitSession (Registry.mk [(7, 1)] 3) 7 2).2 = .accepted (some 1) ∧
    findBySrc ((admitSession (Registry.mk [(7, 1)] 3) 7 2).1).sessions 7 = some 2 :=
  ⟨by decide,
   (admission_same_identity_eviction (Registry.mk [(7, 1)] 3) 7 1 2
      (by decide) (by decide)).1,
   (admission_same_identity_eviction (Registry.mk [(7, 1)] 3) 7 1 2
      (by decide) (by decide)).2.1⟩

/-- An `input` message never changes the session state. -/
theorem step_input_state (s : Session) (d : JSVal) :
    (step s (.msg (.input d))).1 = s := by
  by_cases hc : s.closed <;>
    by_cases ha : s.authenticated <;>
      by_cases hv : validateInput d <;>
        rcases hp : s.pty with _ | p <;>
          simp [step, hc, handleMessage, handleInput, ha, hv, hp]

/-- An `auth` message never changes the PTY handle, the spawn count, or
the closed flag. -/
theorem step_auth_frame (s : Session) (tok : JSVal) :
    ((step s (.msg (.auth tok))).1).spawns = s.spawns ∧
    ((step s (.msg (.auth tok))).1).pty = s.pty ∧
    ((step s (.msg (.auth tok))).1).closed = s.closed := by
  by_cases hc : s.closed
  · simp [step, hc]
  · simp only [step, hc, if_false, handleMessage, handleAuth]
    split_ifs <;> exact ⟨rfl, rfl, by simpa using hc⟩

/-- First valid `resize` on a live authenticated session with no PTY:
`setupPTY` spawns one subprocess with exactly the requested
dimensions. -/
theorem step_resize_spawn (s : Session) (c r : Int)
    (h_open : s.closed = false) (h_auth : s.authenticated = true)
    (hp : s.pty = none) (hc1 : 1 ≤ c) (hc2 : c ≤ 500)
    (hr1 : 1 ≤ r) (hr2 : r ≤ 200) :
    step s (.msg (.resize (some c) (some r))) =
      ({ s with
          pty := some { id := s.spawns, cols := c, rows := r, exited := false }
          spawns := s.spawns + 1 },
       [.spawnPTY s.spawns c r]) := by
  simp only [step, h_open, handleMessage, h_auth, handleResize, hp,
    Bool.false_eq_true, if_false, Bool.not_true]
  rw [if_neg (by omega)]

/-- A valid `resize` on a live authenticated session with an existing
PTY resizes that subprocess in place; nothing is spawned. -/
theorem step_resize_inplace (s : Session) (p : Pty) (c r : Int)
    (h_open : s.closed = false) (h_auth : s.authenticated = true)
    (hp : s.pty = some p) (hc1 : 1 ≤ c) (hc2 : c ≤ 500)
    (hr1 : 1 ≤ r) (hr2 : r ≤ 200) :
    step s (.msg (.resize (some c) (some r))) =
      ({ s with pty := some { p with cols := c, rows := r } },
       [.ptyResize p.id c r]) := by
  simp only [step, h_open, handleMessage, h_auth, handleResize, hp,
    Bool.false_eq_true, if_false, Bool.not_true]
  rw [if_neg (by omega)]

/-- A valid `input` on a live authenticated session with a PTY writes to
that PTY. -/
theorem step_input_write (s : Session) (p : Pty) (d : JSVal)
    (h_open : s.closed = false) (h_auth : s.authenticated = true)
    (hp : s.pty = some p) (hv : validateInput d = true) :
    step s (.msg (.input d)) = (s, [.ptyWrite p.id d.bytes]) := by
  simp [step, h_open, handleMessage, h_auth, handleInput, hp, hv]

/-- The PTY exit callback on a live session only notifies the client: the
handle is kept (marked exited), never cleared or replaced. -/
theorem step_ptyExit (s : Session) (p : Pty) (code : Int)
    (h_open : s.closed = false) (hp : s.pty = some p) :
    step s (.ptyExit code) =
      ({ s with pty := some { p with exited := true } },
       [.send (.exitNotice code)]) := by
  simp [step, h_open, hp]

/-- The close handler on a live session with a PTY kills that PTY,
clears the handle, and cancels the deadline timer. -/
theorem step_wsClose (s : Session) (p : Pty)
    (h_open : s.closed = false) (hp : s.pty = some p) :
    step s .wsClose =
      ({ s with closed := true, authTimeoutActive := false, pty := none },
       [.ptyKill p.id]) := by
  simp [step, h_open, hp]

/-- A single event preserves the spawn-count invariant. -/
theorem ptySpawnInv_step (s : Session) (e : Event) (h : PtySpawnInv s) :
    PtySpawnInv (step s e).1 := by
  obtain ⟨h1, h2, h3⟩ := h
  by_cases hc : s.closed
  · simpa [step, hc] using ⟨h1, h2, h3⟩
  · have hcf : s.closed = false := by simpa using hc
    cases e with
    | msg m =>
      cases m with
      | auth tok =>
        simp only [step, hcf, Bool.false_eq_true, if_false, handleMessage,
          handleAuth]
        split_ifs <;>
          exact ⟨h1, h2, fun hs hpn => absurd (h3 hs hpn) (by simp [hcf])⟩
      | input d =>
        rw [step_input_state s d]
        exact ⟨h1, h2, h3⟩
      | resize c r =>
        by_cases ha : s.authenticated
        · rcases c with _ | cv
          · simpa [step, hcf, handleMessage, handleResize, ha] using
              ⟨h1, h2, h3⟩
          · rcases r with _ | rv
            · simpa [step, hcf, handleMessage, handleResize, ha] using
                ⟨h1, h2, h3⟩
            · by_cases hvalid : cv < 1 ∨ cv > 500 ∨ rv < 1 ∨ rv > 200
              · simp only [step, hcf, Bool.false_eq_true, if_false,
                  handleMessage, ha, Bool.not_true, handleResize]
                rw [if_pos hvalid]
                exact ⟨h1, h2, fun hs hpn => absurd (h3 hs hpn) (by simp [hcf])⟩
              · rcases hp : s.pty with _ | p
                · have h0 : s.spawns = 0 := by
                    rcases Nat.lt_or_ge s.spawns 1 with h' | h'
                    · omega
                    · have := h3 (by omega) hp
                      rw [hcf] at this
                      cases this
                  rw [step_resize_spawn s cv rv hcf ha hp (by omega) (by omega)
                    (by omega) (by omega)]
                  refine ⟨?_, fun _ => ?_, fun _ hnone => ?_⟩
                  · show s.spawns + 1 ≤ 1
                    omega
                  · show s.spawns + 1 = 1
                    omega
                  · simp at hnone
                · have hs := h2 (by simp [hp])
                  rw [step_resize_inplace s p cv rv hcf ha hp (by omega)
                    (by omega) (by omega) (by omega)]
                  refine ⟨h1, fun _ => hs, fun _ hnone => ?_⟩
                  simp at hnone
        · simpa [step, hcf, handleMessage, ha] using ⟨h1, h2, h3⟩
      | unknown =>
        by_cases ha : s.authenticated
        · simp only [step, hcf, Bool.false_eq_true, if_false, handleMessage,
            ha, Bool.not_true]
          exact ⟨h1, h2, fun hs hpn => absurd (h3 hs hpn) (by simp [hcf])⟩
        · simpa [step, hcf, handleMessage, ha] using ⟨h1, h2, h3⟩
      | malformed =>
        simp only [step, hcf, Bool.false_eq_true, if_false, handleMessage]
        exact ⟨h1, h2, fun hs hpn => absurd (h3 hs hpn) (by simp [hcf])⟩
    | authTimeoutFire =>
      simp only [step, hcf, Bool.false_eq_true, if_false]
      split_ifs <;>
        exact ⟨h1, h2, fun hs hpn => absurd (h3 hs hpn) (by simp [hcf])⟩
    | ptyData d =>
      rcases hp : s.pty with _ | p <;>
        · simp only [step, hcf, Bool.false_eq_true, if_false, hp]
          exact ⟨h1, h2, fun hs hpn => absurd (h3 hs hpn) (by simp [hcf])⟩
    | ptyExit code =>
      rcases hp : s.pty with _ | p
      · simp only [step, hcf, Bool.false_eq_true, if_false, hp]
        exact ⟨h1, h2, fun hs hpn => absurd (h3 hs hpn) (by simp [hcf])⟩
      · have hs := h2 (by simp [hp])
        rw [step_ptyExit s p code hcf hp]
        refine ⟨h1, fun _ => hs, fun _ hnone => ?_⟩
        simp at hnone
    | wsClose =>
      simp only [step, hcf, Bool.false_eq_true, if_false]
      exact ⟨h1, fun hsome => by simp at hsome, fun _ _ => rfl⟩

/-- A freshly created session satisfies the spawn-count invariant. -/
theorem ptySpawnInv_init (hasTok : Bool) (tk : Bytes) :
    PtySpawnInv (initSession hasTok tk).1 := by
  refine ⟨by simp [initSession], fun hs => ?_, fun h0 => ?_⟩
  · simp [initSession] at hs
  · simp [initSession] at h0

/-- Any event sequence preserves the spawn-count invariant. -/
theorem ptySpawnInv_run (s : Session) (es : List Event) (h : PtySpawnInv s) :
    PtySpawnInv (run s es).1 := by
  induction es generalizing s with
  | nil => exact h
  | cons e es ih => exact ih (step s e).1 (ptySpawnInv_step s e h)

/-- Once a session holds a PTY (or is closed), no event changes the spawn
count, and the session keeps holding a PTY or ends up closed. -/
theorem spawns_frozen_step (s : Session) (e : Event)
    (h : s.pty.isSome = true ∨ s.closed = true) :
    ((step s e).1).spawns = s.spawns ∧
    ((step s e).1.pty.isSome = true ∨ (step s e).1.closed = true) := by
  by_cases hc : s.closed
  · constructor
    · simp [step, hc]
    · simpa [step, hc] using h
  · have hcf : s.closed = false := by simpa using hc
    rcases h with hsome | hclosed
    · obtain ⟨p, hp⟩ := Option.isSome_iff_exists.mp hsome
      cases e with
      | msg m =>
        cases m with
        | auth tok =>
          obtain ⟨h1, h2, _⟩ := step_auth_frame s tok
          exact ⟨h1, Or.inl (by rw [h2, hp] ; rfl)⟩
        | input d =>
          rw [step_input_state s d]
          exact ⟨rfl, Or.inl hsome⟩
        | resize c r =>
          by_cases ha : s.authenticated
          · rcases c with _ | cv
            · refine ⟨?_, Or.inl ?_⟩ <;>
                simp [step, hcf, handleMessage, ha, handleResize, hp]
            · rcases r with _ | rv
              · refine ⟨?_, Or.inl ?_⟩ <;>
                  simp [step, hcf, handleMessage, ha, handleResize, hp]
              · by_cases hvalid : cv < 1 ∨ cv > 500 ∨ rv < 1 ∨ rv > 200
                · simp only [step, hcf, Bool.false_eq_true, if_false,
                    handleMessage, ha, Bool.not_true, handleResize]
                  rw [if_pos hvalid]
                  exact ⟨rfl, Or.inl (by simp [hp])⟩
                · rw [step_resize_inplace s p cv rv hcf ha hp (by omega)
                    (by omega) (by omega) (by omega)]
                  exact ⟨rfl, Or.inl rfl⟩
          · refine ⟨?_, Or.inl ?_⟩ <;> simp [step, hcf, handleMessage, ha, hp]
        | unknown =>
          by_cases ha : s.authenticated <;>
            refine ⟨?_, Or.inl ?_⟩ <;>
              simp [step, hcf, handleMessage, ha, hp]
        | malformed =>
          refine ⟨?_, Or.inl ?_⟩ <;> simp [step, hcf, handleMessage, hp]
      | authTimeoutFire =>
        simp only [step, hcf, Bool.false_eq_true, if_false]
        split_ifs <;> exact ⟨rfl, Or.inl (by simp [hp])⟩
      | ptyData d =>
        refine ⟨?_, Or.inl ?_⟩ <;> simp [step, hcf, hp]
      | ptyExit code =>
        rw [step_ptyExit s p code hcf hp]
        exact ⟨rfl, Or.inl rfl⟩
      | wsClose =>
        rw [step_wsClose s p hcf hp]
        exact ⟨rfl, Or.inr rfl⟩
    · rw [hclosed] at hcf
      cases hcf

/-- Once a session holds a PTY (or is closed), its spawn count never
changes again, over any event sequence. -/
theorem spawns_frozen_run (s : Session) (es : List Event)
    (h : s.pty.isSome = true ∨ s.closed = true) :
    ((run s es).1).spawns = s.spawns := by
  induction es generalizing s with
  | nil => rfl
  | cons e es ih =>
    have hs := spawns_frozen_step s e h
    have htail := ih (step s e).1 hs.2
    show ((run (step s e).1 es).1).spawns = s.spawns
    rw [htail, hs.1]

/-- Claim C6: a PTY subprocess is created at most once per session and
only in response to a client `resize`: over any event sequence from a
fresh session at most one spawn happens; on a live authenticated session
the first valid `resize` spawns exactly one subprocess with exactly the
requested dimensions; a valid `resize` with a PTY present resizes that
same subprocess in place without spawning; and no event other than a
`resize` message ever changes the spawn count. -/
theorem pty_spawned_at_most_once (hasTok : Bool) (tk : Bytes)
    (es : List Event) (s : Session) (c r : Int)
    (h_open : s.closed = false) (h_auth : s.authenticated = true)
    (hc1 : 1 ≤ c) (hc2 : c ≤ 500) (hr1 : 1 ≤ r) (hr2 : r ≤ 200) :
    ((run (initSession hasTok tk).1 es).1).spawns ≤ 1 ∧
    (s.pty = none →
      step s (.msg (.resize (some c) (some r))) =
        ({ s with
            pty := some { id := s.spawns, cols := c, rows := r, exited := false }
            spawns := s.spawns + 1 },
         [.spawnPTY s.spawns c r])) ∧
    (∀ p, s.pty = some p →
      step s (.msg (.resize (some c) (some r))) =
        ({ s with pty := some { p with cols := c, rows := r } },
         [.ptyResize p.id c r])) ∧
    (∀ e, ((step s e).1).spawns ≠ s.spawns →
      ∃ c' r', e = .msg (.resize (some c') (some r'))) := by
  refine ⟨(ptySpawnInv_run _ es (ptySpawnInv_init hasTok tk)).1,
    fun hp => step_resize_spawn s c r h_open h_auth hp hc1 hc2 hr1 hr2,
    fun p hp => step_resize_inplace s p c r h_open h_auth hp hc1 hc2 hr1 hr2,
    fun e hne => ?_⟩
  cases e with
  | msg m =>
    cases m with
    | resize c' r' =>
      rcases c' with _ | cv
      · exact absurd (by simp [step, h_open, handleMessage, h_auth,
          handleResize]) hne
      · rcases r' with _ | rv
        · exact absurd (by simp [step, h_open, handleMessage, h_auth,
            handleResize]) hne
        · exact ⟨cv, rv, rfl⟩
    | auth tok => exact absurd (step_auth_frame s tok).1 hne
    | input d => exact absurd (by rw [step_input_state]) hne
    | unknown =>
      exact absurd (by simp [step, h_open, handleMessage, h_auth]) hne
    | malformed => exact absurd (by simp [step, h_open, handleMessage]) hne
  | authTimeoutFire =>
    refine absurd ?_ hne
    simp only [step, h_open, Bool.false_eq_true, if_false]
    split_ifs <;> rfl
  | ptyData d =>
    refine absurd ?_ hne
    rcases hp : s.pty with _ | p <;> simp [step, h_open, hp]
  | ptyExit code =>
    refine absurd ?_ hne
    rcases hp : s.pty with _ | p
    · simp [step, h_open, hp]
    · rw [step_ptyExit s p code h_open hp]
  | wsClose =>
    refine absurd ?_ hne
    rcases hp : s.pty with _ | p
    · simp [step, h_open, hp]
    · rw [step_wsClose s p h_open hp]

/-- Claim C6 witness: on a concrete fresh authenticated session, the
first valid resize spawns PTY 0 sized 80×24, and a two-resize trace ends
with exactly one spawn. -/
theorem pty_spawned_at_most_once_witness :
    ((run (initSession false []).1
        [.msg (.resize (some 80) (some 24)),
         .msg (.resize (some 100) (some 40))]).1).spawns ≤ 1 ∧
    step (Session.mk false [] true false none 0 false)
        (.msg (.resize (some 80) (some 24))) =
      (Session.mk false [] true false
        (some (Pty.mk 0 80 24 false)) 1 false,
       [.spawnPTY 0 80 24]) :=
  ⟨(pty_spawned_at_most_once false []
      [.msg (.resize (some 80) (some 24)), .msg (.resize (some 100) (some 40))]
      (Session.mk false [] true false none 0 false) 80 24
      rfl rfl (by decide) (by decide) (by decide) (by decide)).1,
   (pty_spawned_at_most_once false []
      [.msg (.resize (some 80) (some 24)), .msg (.resize (some 100) (some 40))]
      (Session.mk false [] true false none 0 false) 80 24
      rfl rfl (by decide) (by decide) (by decide) (by decide)).2.1 rfl⟩

/-- Claim C10: when the PTY exits, the session's handle is not cleared or
replaced: the exit event only relays the notice and keeps the same
handle; afterwards a valid `input` still writes to that handle and a
valid `resize` still resizes it in place; no replacement subprocess is
ever spawned (the spawn count never changes again over any events); and
only the connection close kills the handle and sets it to `none`. -/
theorem pty_exit_keeps_handle (s : Session) (p : Pty) (code : Int)
    (d : JSVal) (c r : Int)
    (h_open : s.closed = false) (h_auth : s.authenticated = true)
    (hp : s.pty = some p) (hv : validateInput d = true)
    (hc1 : 1 ≤ c) (hc2 : c ≤ 500) (hr1 : 1 ≤ r) (hr2 : r ≤ 200) :
    step s (.ptyExit code) =
      ({ s with pty := some { p with exited := true } },
       [.send (.exitNotice code)]) ∧
    ((step s (.ptyExit code)).1).pty = some { p with exited := true } ∧
    step (step s (.ptyExit code)).1 (.msg (.input d)) =
      ((step s (.ptyExit code)).1, [.ptyWrite p.id d.bytes]) ∧
    step (step s (.ptyExit code)).1 (.msg (.resize (some c) (some r))) =
      ({ (step s (.ptyExit code)).1 with
          pty := some { id := p.id, cols := c, rows := r, exited := true } },
       [.ptyResize p.id c r]) ∧
    (∀ es, ((run (step s (.ptyExit code)).1 es).1).spawns = s.spawns) ∧
    step (step s (.ptyExit code)).1 .wsClose =
      ({ (step s (.ptyExit code)).1 with
          closed := true, authTimeoutActive := false, pty := none },
       [.ptyKill p.id]) := by
  have hstep := step_ptyExit s p code h_open hp
  have hs' : (step s (.ptyExit code)).1 =
      { s with pty := some { p with exited := true } } := by
    rw [hstep]
  refine ⟨hstep, ?_, ?_, ?_, fun es => ?_, ?_⟩
  · rw [hs']
  · rw [hs']
    exact step_input_write _ { p with exited := true } d h_open h_auth rfl hv
  · rw [hs']
    exact step_resize_inplace _ { p with exited := true } c r h_open h_auth rfl
      hc1 hc2 hr1 hr2
  · rw [hs']
    exact spawns_frozen_run { s with pty := some { p with exited := true } } es
      (Or.inl rfl)
  · rw [hs']
    exact step_wsClose _ { p with exited := true } h_open rfl

/-- Claim C10 witness: on a concrete session holding PTY 0, the exit
event keeps the handle, and a later valid input still writes to PTY 0. -/
theorem pty_exit_keeps_handle_witness :
    ((step (Session.mk false [] true false
        (some (Pty.mk 0 80 24 false)) 1 false) (.ptyExit 0)).1).pty =
      some (Pty.mk 0 80 24 true) ∧
    step (step (Session.mk false [] true false
        (some (Pty.mk 0 80 24 false)) 1 false) (.ptyExit 0)).1
        (.msg (.input (.vstr [7]))) =
      ((step (Session.mk false [] true false
          (some (Pty.mk 0 80 24 false)) 1 false) (.ptyExit 0)).1,
       [.ptyWrite 0 [7]]) :=
  ⟨(pty_exit_keeps_handle (Session.mk false [] true false
      (some (Pty.mk 0 80 24 false)) 1 false) (Pty.mk 0 80 24 false) 0
      (.vstr [7]) 100 40 rfl rfl rfl (by decide) (by decide) (by decide)
      (by decide) (by decide)).2.1,
   (pty_exit_keeps_handle (Session.mk false [] true false
      (some (Pty.mk 0 80 24 false)) 1 false) (Pty.mk 0 80 24 false) 0
      (.vstr [7]) 100 40 rfl rfl rfl (by decide) (by decide) (by decide)
      (by decide) (by decide)).2.2.1⟩

end TinyTerminal
